import Mathlib

/-!
# firebase_config.js: session bootstrap and menu-item writer

A shallow embedding of `src/firebase_config.js`.  The module is glue over a
vendor SDK, so the SDK (and `JSON.parse`, and the clock read by `new Date()`)
are parameters of the model: every call to them is answered by a `Platform`
value, and every call the module makes is recorded, in program order, in a
list of `Event`s.  An `async` function is modelled by the run it performs when
no other code interleaves with it: its events, the signed-in user it leaves
behind and the way its promise settles (`Except.ok v` for fulfilled with `v`,
`Except.error e` for rejected with `e`).
-/

namespace FirebaseConfig

/-! ## Data model -/

/-- JavaScript values that flow through the module.  Numbers are the finite
ones, kept as exact rationals: the module never computes with them. -/
inductive JsVal where
  | undefined
  | null
  | bool (b : Bool)
  | num (q : Rat)
  | str (s : String)
  | date (ms : Int)
  | arr (items : List JsVal)
  | obj (fields : List (String × JsVal))

/-- Persistence modes offered by the authentication SDK; the module imports
only `browserSessionPersistence`. -/
inductive Persistence where
  | browserSessionPersistence
  | browserLocalPersistence
  | inMemoryPersistence
  deriving DecidableEq

/-- The part of the SDK's user object the module depends on: `uid`, and
whether the identity was granted without credentials. -/
structure User where
  uid : String
  isAnonymous : Bool
  deriving DecidableEq

/-- Calls that leave the module, in the order they are made. -/
inductive Event where
  | initializeApp (config : JsVal)
  | getFirestore
  | getAuth
  | setPersistence (mode : Persistence)
  | signInWithCustomToken (token : String)
  | signInAnonymously
  | collection (path : String)
  | addDoc (path : String) (data : JsVal)
  | log (args : List JsVal)
  | warn (args : List JsVal)
  | error (args : List JsVal)

/-- Answers of everything outside the file: `JSON.parse`, the SDK entry
points the module imports, each either returning or throwing a value.  A
sign-in answers with the `uid` of the user it signs in, `collection` with a
reference identified by its path, `addDoc` with the `id` of the new document
reference. -/
structure Platform where
  jsonParse : String → Except JsVal JsVal
  initializeApp : JsVal → Except JsVal Unit
  getFirestore : Except JsVal Unit
  getAuth : Except JsVal Unit
  setPersistence : Persistence → Except JsVal Unit
  signInWithCustomToken : String → Except JsVal String
  signInAnonymously : Except JsVal String
  collection : String → Except JsVal Unit
  addDoc : String → JsVal → Except JsVal String

/-- The three globals the hosting environment may inject (`__firebase_config`,
`__app_id`, `__initial_auth_token`), each a string when it is injected;
`none` is `typeof x === 'undefined'`. -/
structure Env where
  firebase_config : Option String
  app_id : Option String
  initial_auth_token : Option String

/-- What one run of a function of the module amounts to. -/
structure Run where
  events : List Event
  currentUser : Option User
  result : Except JsVal JsVal

/-! ## Observations on event lists -/

def Event.isSetPersistence : Event → Bool
  | .setPersistence _ => true
  | _ => false

def Event.isSignInWithCustomToken : Event → Bool
  | .signInWithCustomToken _ => true
  | _ => false

def Event.isSignInAnonymously : Event → Bool
  | .signInAnonymously => true
  | _ => false

def Event.isCollection : Event → Bool
  | .collection _ => true
  | _ => false

def Event.isAddDoc : Event → Bool
  | .addDoc _ _ => true
  | _ => false

def Event.isLog : Event → Bool
  | .log _ => true
  | _ => false

def Event.isWarn : Event → Bool
  | .warn _ => true
  | _ => false

def Event.isError : Event → Bool
  | .error _ => true
  | _ => false

/-- Any `console` call, whatever its level. -/
def Event.isConsole (e : Event) : Bool :=
  e.isLog || e.isWarn || e.isError

/-- The documents handed to `addDoc`, in order. -/
def addedRecords : List Event → List JsVal
  | [] => []
  | .addDoc _ data :: rest => data :: addedRecords rest
  | _ :: rest => addedRecords rest

/-- The collection paths handed to `addDoc`, in order. -/
def writePaths : List Event → List String
  | [] => []
  | .addDoc path _ :: rest => path :: writePaths rest
  | _ :: rest => writePaths rest

/-- The paths handed to `collection`, in order. -/
def collectionPaths : List Event → List String
  | [] => []
  | .collection path :: rest => path :: collectionPaths rest
  | _ :: rest => collectionPaths rest

/-- The configurations handed to `initializeApp`, in order. -/
def appConfigs : List Event → List JsVal
  | [] => []
  | .initializeApp config :: rest => config :: appConfigs rest
  | _ :: rest => appConfigs rest

/-- The names of the fields of an object literal, in order. -/
def JsVal.keys : JsVal → List String
  | .obj fields => fields.map Prod.fst
  | _ => []

/-! ## The module -/

/-- Lines 23-25: `typeof __firebase_config !== 'undefined' ?
JSON.parse(__firebase_config) : {}`. -/
def firebaseConfig (p : Platform) (env : Env) : Except JsVal JsVal :=
  match env.firebase_config with
  | some blob => p.jsonParse blob
  | none => .ok (.obj [])

/-- Line 28: `typeof __app_id !== 'undefined' ? __app_id : 'default-app-id'`. -/
def appId (env : Env) : String :=
  match env.app_id with
  | some id => id
  | none => "default-app-id"

/-- The test `if (initialAuthToken)` of line 54 on
`typeof __initial_auth_token !== 'undefined' ? __initial_auth_token : null`:
the token when it is truthy, that is present and not the empty string. -/
def truthyToken : Option String → Option String
  | some tok => if tok = "" then none else some tok
  | none => none

/-- Lines 47-70, `async function initializeAuth()`, started with `cur` as the
SDK's current user.  A sign-in that returns makes the user it signed in the
current user, credential-based after `signInWithCustomToken` and anonymous
after `signInAnonymously`; a sign-in that throws leaves the current user as it
was. -/
def initializeAuth (p : Platform) (env : Env) (cur : Option User) : Run :=
  -- await setPersistence(auth, browserSessionPersistence);
  match p.setPersistence .browserSessionPersistence with
  | .error e =>
    { events := [.setPersistence .browserSessionPersistence]
      currentUser := cur
      result := .error e }
  | .ok _ =>
    match truthyToken env.initial_auth_token with
    | some initialAuthToken =>
      -- try { await signInWithCustomToken(auth, initialAuthToken); ... }
      match p.signInWithCustomToken initialAuthToken with
      | .ok uid =>
        { events := [.setPersistence .browserSessionPersistence,
                     .signInWithCustomToken initialAuthToken,
                     .log [.str "Autenticación inicial exitosa con Custom Token."]]
          currentUser := some { uid := uid, isAnonymous := false }
          result := .ok .undefined }
      | .error error =>
        -- catch (error) { console.error(...); await signInAnonymously(auth); ... }
        match p.signInAnonymously with
        | .ok uid =>
          { events := [.setPersistence .browserSessionPersistence,
                       .signInWithCustomToken initialAuthToken,
                       .error [.str "Error al autenticar con Custom Token:", error],
                       .signInAnonymously,
                       .log [.str "Autenticación anónima utilizada como fallback."]]
            currentUser := some { uid := uid, isAnonymous := true }
            result := .ok .undefined }
        | .error e =>
          { events := [.setPersistence .browserSessionPersistence,
                       .signInWithCustomToken initialAuthToken,
                       .error [.str "Error al autenticar con Custom Token:", error],
                       .signInAnonymously]
            currentUser := cur
            result := .error e }
    | none =>
      -- else { await signInAnonymously(auth); ... }
      match p.signInAnonymously with
      | .ok uid =>
        { events := [.setPersistence .browserSessionPersistence,
                     .signInAnonymously,
                     .log [.str "Autenticación anónima exitosa (no token de entorno)."]]
          currentUser := some { uid := uid, isAnonymous := true }
          result := .ok .undefined }
      | .error e =>
        { events := [.setPersistence .browserSessionPersistence,
                     .signInAnonymously]
          currentUser := cur
          result := .error e }

/-- Line 92, the template literal
`artifacts/${appId}/users/${userId}/menu_items`. -/
def menuItemsPath (appId userId : String) : String :=
  "artifacts/" ++ appId ++ "/users/" ++ userId ++ "/menu_items"

/-- Lines 94-99, the object literal handed to `addDoc`; `createdAt` is
`new Date()`, the clock reading `now`. -/
def menuItem (name price description : JsVal) (now : Int) : JsVal :=
  .obj [("name", name), ("price", price), ("description", description),
        ("createdAt", .date now)]

/-- Lines 82-106, `export async function addMenuItem(name, price,
description)`, called while the SDK's current user is `cur` and the clock
reads `now`. -/
def addMenuItem (p : Platform) (env : Env) (now : Int) (cur : Option User)
    (name price description : JsVal) : Run :=
  match cur with
  | none =>
    -- if (!auth.currentUser) { console.warn(...); return; }
    { events := [.warn [.str "Autenticación no lista. No se puede guardar sin usuario logueado."]]
      currentUser := cur
      result := .ok .undefined }
  | some user =>
    let userId := user.uid
    let path := menuItemsPath (appId env) userId
    match p.collection path with
    | .error e =>
      { events := [.collection path,
                   .error [.str "Error al agregar documento: ", e]]
        currentUser := cur
        result := .ok .undefined }
    | .ok _ =>
      let data := menuItem name price description now
      match p.addDoc path data with
      | .error e =>
        { events := [.collection path, .addDoc path data,
                     .error [.str "Error al agregar documento: ", e]]
          currentUser := cur
          result := .ok .undefined }
      | .ok id =>
        { events := [.collection path, .addDoc path data,
                     .log [.str "Artículo de menú agregado con ID: ", .str id]]
          currentUser := cur
          result := .ok .undefined }

/-- The top level of the module, lines 23-73: compute the configuration,
create the app and the two service handles, start `initializeAuth()` without
awaiting it (its rejection does not abort the module). -/
def loadModule (p : Platform) (env : Env) : Run :=
  match firebaseConfig p env with
  | .error e => { events := [], currentUser := none, result := .error e }
  | .ok config =>
    match p.initializeApp config with
    | .error e =>
      { events := [.initializeApp config], currentUser := none, result := .error e }
    | .ok _ =>
      match p.getFirestore with
      | .error e =>
        { events := [.initializeApp config, .getFirestore]
          currentUser := none
          result := .error e }
      | .ok _ =>
        match p.getAuth with
        | .error e =>
          { events := [.initializeApp config, .getFirestore, .getAuth]
            currentUser := none
            result := .error e }
        | .ok _ =>
          let boot := initializeAuth p env none
          { events := [.initializeApp config, .getFirestore, .getAuth] ++ boot.events
            currentUser := boot.currentUser
            result := .ok .undefined }

/-! ## Concrete platforms and environments used to exercise the theorems -/

/-- A platform on which every call succeeds. -/
def okPlatform : Platform where
  jsonParse := fun blob =>
    if blob = "\x7b\x7d" then .ok (.obj []) else .error (.str "SyntaxError")
  initializeApp := fun _ => .ok ()
  getFirestore := .ok ()
  getAuth := .ok ()
  setPersistence := fun _ => .ok ()
  signInWithCustomToken := fun _ => .ok "user-1"
  signInAnonymously := .ok "anon-1"
  collection := fun _ => .ok ()
  addDoc := fun _ _ => .ok "doc-1"

/-- As `okPlatform`, but `setPersistence` throws. -/
def noPersistence : Platform :=
  { okPlatform with setPersistence := fun _ => .error (.str "auth/unsupported-persistence-type") }

/-- As `okPlatform`, but the custom token is refused. -/
def badToken : Platform :=
  { okPlatform with signInWithCustomToken := fun _ => .error (.str "auth/invalid-custom-token") }

/-- As `badToken`, and anonymous sign-in is refused too. -/
def noSignIn : Platform :=
  { badToken with signInAnonymously := .error (.str "auth/operation-not-allowed") }

/-- As `okPlatform`, but `collection` throws. -/
def badPath : Platform :=
  { okPlatform with collection := fun _ => .error (.str "invalid-argument") }

/-- As `okPlatform`, but `addDoc` rejects. -/
def readOnly : Platform :=
  { okPlatform with addDoc := fun _ _ => .error (.str "permission-denied") }

/-- Nothing injected by the environment. -/
def bareEnv : Env :=
  { firebase_config := none, app_id := none, initial_auth_token := none }

/-- Everything injected by the environment. -/
def fullEnv : Env :=
  { firebase_config := some "\x7b\x7d", app_id := some "cafe", initial_auth_token := some "tok" }

/-- A signed-in anonymous user. -/
def guest : User := { uid := "u1", isAnonymous := true }

/-! ## The runs of `addMenuItem`, branch by branch -/

theorem addMenuItem_run_written (p : Platform) (env : Env) (now : Int) (user : User)
    (name price description : JsVal) (id : String)
    (hc : p.collection (menuItemsPath (appId env) user.uid) = .ok ())
    (ha : p.addDoc (menuItemsPath (appId env) user.uid)
            (menuItem name price description now) = .ok id) :
    addMenuItem p env now (some user) name price description =
      { events := [.collection (menuItemsPath (appId env) user.uid),
                   .addDoc (menuItemsPath (appId env) user.uid)
                     (menuItem name price description now),
                   .log [.str "Artículo de menú agregado con ID: ", .str id]]
        currentUser := some user
        result := .ok .undefined } := by
  simp only [addMenuItem, hc, ha]

theorem addMenuItem_run_collection_throws (p : Platform) (env : Env) (now : Int) (user : User)
    (name price description e : JsVal)
    (hc : p.collection (menuItemsPath (appId env) user.uid) = .error e) :
    addMenuItem p env now (some user) name price description =
      { events := [.collection (menuItemsPath (appId env) user.uid),
                   .error [.str "Error al agregar documento: ", e]]
        currentUser := some user
        result := .ok .undefined } := by
  simp only [addMenuItem, hc]

theorem addMenuItem_run_addDoc_rejects (p : Platform) (env : Env) (now : Int) (user : User)
    (name price description e : JsVal)
    (hc : p.collection (menuItemsPath (appId env) user.uid) = .ok ())
    (ha : p.addDoc (menuItemsPath (appId env) user.uid)
            (menuItem name price description now) = .error e) :
    addMenuItem p env now (some user) name price description =
      { events := [.collection (menuItemsPath (appId env) user.uid),
                   .addDoc (menuItemsPath (appId env) user.uid)
                     (menuItem name price description now),
                   .error [.str "Error al agregar documento: ", e]]
        currentUser := some user
        result := .ok .undefined } := by
  simp only [addMenuItem, hc, ha]

/-- Whatever happens, the promise returned by `addMenuItem` is fulfilled with
`undefined`. -/
theorem addMenuItem_result (p : Platform) (env : Env) (now : Int) (cur : Option User)
    (name price description : JsVal) :
    (addMenuItem p env now cur name price description).result = .ok .undefined := by
  unfold addMenuItem
  split
  · rfl
  · dsimp only
    split
    · rfl
    · split <;> rfl

/-! ## The runs of `initializeAuth`, branch by branch -/

theorem initializeAuth_run_persistence_throws (p : Platform) (env : Env) (cur : Option User)
    (e : JsVal) (hp : p.setPersistence .browserSessionPersistence = .error e) :
    initializeAuth p env cur =
      { events := [.setPersistence .browserSessionPersistence]
        currentUser := cur
        result := .error e } := by
  simp only [initializeAuth, hp]

theorem initializeAuth_run_token (p : Platform) (env : Env) (cur : Option User)
    (tok uid : String) (hp : p.setPersistence .browserSessionPersistence = .ok ())
    (ht : truthyToken env.initial_auth_token = some tok)
    (hs : p.signInWithCustomToken tok = .ok uid) :
    initializeAuth p env cur =
      { events := [.setPersistence .browserSessionPersistence,
                   .signInWithCustomToken tok,
                   .log [.str "Autenticación inicial exitosa con Custom Token."]]
        currentUser := some { uid := uid, isAnonymous := false }
        result := .ok .undefined } := by
  simp only [initializeAuth, hp, ht, hs]

theorem initializeAuth_run_fallback (p : Platform) (env : Env) (cur : Option User)
    (tok uid : String) (err : JsVal)
    (hp : p.setPersistence .browserSessionPersistence = .ok ())
    (ht : truthyToken env.initial_auth_token = some tok)
    (hs : p.signInWithCustomToken tok = .error err)
    (ha : p.signInAnonymously = .ok uid) :
    initializeAuth p env cur =
      { events := [.setPersistence .browserSessionPersistence,
                   .signInWithCustomToken tok,
                   .error [.str "Error al autenticar con Custom Token:", err],
                   .signInAnonymously,
                   .log [.str "Autenticación anónima utilizada como fallback."]]
        currentUser := some { uid := uid, isAnonymous := true }
        result := .ok .undefined } := by
  simp only [initializeAuth, hp, ht, hs, ha]

theorem initializeAuth_run_fallback_throws (p : Platform) (env : Env) (cur : Option User)
    (tok : String) (err e : JsVal)
    (hp : p.setPersistence .browserSessionPersistence = .ok ())
    (ht : truthyToken env.initial_auth_token = some tok)
    (hs : p.signInWithCustomToken tok = .error err)
    (ha : p.signInAnonymously = .error e) :
    initializeAuth p env cur =
      { events := [.setPersistence .browserSessionPersistence,
                   .signInWithCustomToken tok,
                   .error [.str "Error al autenticar con Custom Token:", err],
                   .signInAnonymously]
        currentUser := cur
        result := .error e } := by
  simp only [initializeAuth, hp, ht, hs, ha]

theorem initializeAuth_run_anonymous (p : Platform) (env : Env) (cur : Option User)
    (uid : String) (hp : p.setPersistence .browserSessionPersistence = .ok ())
    (ht : truthyToken env.initial_auth_token = none)
    (ha : p.signInAnonymously = .ok uid) :
    initializeAuth p env cur =
      { events := [.setPersistence .browserSessionPersistence,
                   .signInAnonymously,
                   .log [.str "Autenticación anónima exitosa (no token de entorno)."]]
        currentUser := some { uid := uid, isAnonymous := true }
        result := .ok .undefined } := by
  simp only [initializeAuth, hp, ht, ha]

theorem initializeAuth_run_anonymous_throws (p : Platform) (env : Env) (cur : Option User)
    (e : JsVal) (hp : p.setPersistence .browserSessionPersistence = .ok ())
    (ht : truthyToken env.initial_auth_token = none)
    (ha : p.signInAnonymously = .error e) :
    initializeAuth p env cur =
      { events := [.setPersistence .browserSessionPersistence,
                   .signInAnonymously]
        currentUser := cur
        result := .error e } := by
  simp only [initializeAuth, hp, ht, ha]

/-- A supplied token is truthy exactly when it is not the empty string. -/
theorem truthyToken_some (tok : String) :
    (tok = "" ∧ truthyToken (some tok) = none) ∨
    (tok ≠ "" ∧ truthyToken (some tok) = some tok) := by
  unfold truthyToken
  by_cases h : tok = ""
  · exact Or.inl ⟨h, if_pos h⟩
  · exact Or.inr ⟨h, if_neg h⟩

/-! ## Two concrete bootstraps -/

theorem fullEnv_truthyToken : truthyToken fullEnv.initial_auth_token = some "tok" := by
  decide

theorem initializeAuth_okPlatform_fullEnv :
    initializeAuth okPlatform fullEnv none =
      { events := [.setPersistence .browserSessionPersistence,
                   .signInWithCustomToken "tok",
                   .log [.str "Autenticación inicial exitosa con Custom Token."]]
        currentUser := some { uid := "user-1", isAnonymous := false }
        result := .ok .undefined } :=
  initializeAuth_run_token okPlatform fullEnv none "tok" "user-1" rfl fullEnv_truthyToken rfl

theorem initializeAuth_badToken_fullEnv :
    initializeAuth badToken fullEnv none =
      { events := [.setPersistence .browserSessionPersistence,
                   .signInWithCustomToken "tok",
                   .error [.str "Error al autenticar con Custom Token:",
                           .str "auth/invalid-custom-token"],
                   .signInAnonymously,
                   .log [.str "Autenticación anónima utilizada como fallback."]]
        currentUser := some { uid := "anon-1", isAnonymous := true }
        result := .ok .undefined } :=
  initializeAuth_run_fallback badToken fullEnv none "tok" "anon-1"
    (.str "auth/invalid-custom-token") rfl fullEnv_truthyToken rfl rfl

theorem mem_events_okPlatform_fullEnv :
    Event.signInWithCustomToken "tok" ∈ (initializeAuth okPlatform fullEnv none).events := by
  rw [initializeAuth_okPlatform_fullEnv]
  exact List.Mem.tail _ (List.Mem.head _)

theorem mem_events_badToken_fullEnv :
    Event.signInWithCustomToken "tok" ∈ (initializeAuth badToken fullEnv none).events := by
  rw [initializeAuth_badToken_fullEnv]
  exact List.Mem.tail _ (List.Mem.head _)

theorem mem_anonymous_badToken_fullEnv :
    Event.signInAnonymously ∈ (initializeAuth badToken fullEnv none).events := by
  rw [initializeAuth_badToken_fullEnv]
  exact List.Mem.tail _ (List.Mem.tail _ (List.Mem.tail _ (List.Mem.head _)))

/-- The bootstrap never calls `initializeApp`. -/
theorem appConfigs_initializeAuth (p : Platform) (env : Env) (cur : Option User) :
    appConfigs (initializeAuth p env cur).events = [] := by
  unfold initializeAuth
  split
  · rfl
  · split
    · split
      · rfl
      · split <;> rfl
    · split <;> rfl

/-- Once the configuration is computed, `initializeApp` is called with it,
once, whatever the SDK answers afterwards. -/
theorem appConfigs_loadModule (p : Platform) (env : Env) (config : JsVal)
    (h : firebaseConfig p env = .ok config) :
    appConfigs (loadModule p env).events = [config] := by
  unfold loadModule
  rw [h]
  dsimp only
  split
  · rfl
  · split
    · rfl
    · split
      · rfl
      · show config :: appConfigs (initializeAuth p env none).events = [config]
        rw [appConfigs_initializeAuth]

/-! ## The record writer -/

/-- C1: called while no identity is established, `addMenuItem` calls neither
`collection` nor `addDoc`, emits exactly one warning and no other console
entry, and its promise is fulfilled (with no value). -/
theorem addMenuItem_without_identity (p : Platform) (env : Env) (now : Int)
    (name price description : JsVal) :
    (addMenuItem p env now none name price description).events.countP Event.isCollection = 0 ∧
    (addMenuItem p env now none name price description).events.countP Event.isAddDoc = 0 ∧
    (addMenuItem p env now none name price description).events.countP Event.isWarn = 1 ∧
    (addMenuItem p env now none name price description).events.countP Event.isConsole = 1 ∧
    (addMenuItem p env now none name price description).result = .ok .undefined :=
  ⟨rfl, rfl, rfl, rfl, rfl⟩

/-- C2: with an identity established and both `collection` and `addDoc`
succeeding, exactly one record is handed to `addDoc`; it has exactly the
fields name, price, description, createdAt, the first three being the
arguments unchanged; and the only console entry is one `log` carrying the
identifier `addDoc` answered with. -/
theorem addMenuItem_success (p : Platform) (env : Env) (now : Int) (user : User)
    (name price description : JsVal) (id : String)
    (hc : p.collection (menuItemsPath (appId env) user.uid) = .ok ())
    (ha : p.addDoc (menuItemsPath (appId env) user.uid)
            (menuItem name price description now) = .ok id) :
    (addMenuItem p env now (some user) name price description).events.countP Event.isAddDoc = 1 ∧
    addedRecords (addMenuItem p env now (some user) name price description).events
      = [.obj [("name", name), ("price", price), ("description", description),
               ("createdAt", .date now)]] ∧
    (addedRecords (addMenuItem p env now (some user) name price description).events).map
        JsVal.keys = [["name", "price", "description", "createdAt"]] ∧
    (addMenuItem p env now (some user) name price description).events.filter Event.isConsole
      = [.log [.str "Artículo de menú agregado con ID: ", .str id]] ∧
    (addMenuItem p env now (some user) name price description).result = .ok .undefined := by
  rw [addMenuItem_run_written p env now user name price description id hc ha]
  exact ⟨rfl, rfl, rfl, rfl, rfl⟩

/-- C2 at name "Taco", price 3.5, description "Spicy". -/
theorem addMenuItem_success_witness :
    (okPlatform.collection (menuItemsPath (appId fullEnv) guest.uid) = .ok () ∧
     okPlatform.addDoc (menuItemsPath (appId fullEnv) guest.uid)
       (menuItem (.str "Taco") (.num (7/2)) (.str "Spicy") 1700000000000) = .ok "doc-1") ∧
    ((addMenuItem okPlatform fullEnv 1700000000000 (some guest)
        (.str "Taco") (.num (7/2)) (.str "Spicy")).events.countP Event.isAddDoc = 1 ∧
     addedRecords (addMenuItem okPlatform fullEnv 1700000000000 (some guest)
        (.str "Taco") (.num (7/2)) (.str "Spicy")).events
      = [.obj [("name", .str "Taco"), ("price", .num (7/2)), ("description", .str "Spicy"),
               ("createdAt", .date 1700000000000)]] ∧
     (addedRecords (addMenuItem okPlatform fullEnv 1700000000000 (some guest)
        (.str "Taco") (.num (7/2)) (.str "Spicy")).events).map JsVal.keys
      = [["name", "price", "description", "createdAt"]] ∧
     (addMenuItem okPlatform fullEnv 1700000000000 (some guest)
        (.str "Taco") (.num (7/2)) (.str "Spicy")).events.filter Event.isConsole
      = [.log [.str "Artículo de menú agregado con ID: ", .str "doc-1"]] ∧
     (addMenuItem okPlatform fullEnv 1700000000000 (some guest)
        (.str "Taco") (.num (7/2)) (.str "Spicy")).result = .ok .undefined) :=
  ⟨⟨rfl, rfl⟩, addMenuItem_success okPlatform fullEnv 1700000000000 guest
      (.str "Taco") (.num (7/2)) (.str "Spicy") "doc-1" rfl rfl⟩

/-- C3, as the code has it: the path handed to `collection` is
`artifacts/` followed by the application identifier, `/users/`, the uid of
the signed-in user and `/menu_items`; a document, when one is added, goes to
that same collection; the application identifier is the one the environment
supplies, or `default-app-id` when it supplies none. -/
theorem addMenuItem_collection_path (p : Platform) (env : Env) (now : Int) (user : User)
    (name price description : JsVal) :
    collectionPaths (addMenuItem p env now (some user) name price description).events
      = ["artifacts/" ++ appId env ++ "/users/" ++ user.uid ++ "/menu_items"] ∧
    (writePaths (addMenuItem p env now (some user) name price description).events = [] ∨
     writePaths (addMenuItem p env now (some user) name price description).events
      = ["artifacts/" ++ appId env ++ "/users/" ++ user.uid ++ "/menu_items"]) ∧
    appId env = env.app_id.getD "default-app-id" := by
  refine ⟨?_, ?_, ?_⟩
  · unfold addMenuItem
    dsimp only
    split
    · rfl
    · split <;> rfl
  · unfold addMenuItem
    dsimp only
    split
    · exact Or.inl rfl
    · split <;> exact Or.inr rfl
  · unfold appId
    cases env.app_id <;> rfl

/-- C3 as stated fails: for application identifier `cafe` and user `u1` the
collection is `artifacts/cafe/users/u1/menu_items`, which is not
`tenant/cafe/users/u1/menu_items`. -/
theorem addMenuItem_path_not_tenant :
    collectionPaths (addMenuItem okPlatform fullEnv 1700000000000 (some guest)
        (.str "Taco") (.num (7/2)) (.str "Spicy")).events
      = ["artifacts/cafe/users/u1/menu_items"] ∧
    collectionPaths (addMenuItem okPlatform fullEnv 1700000000000 (some guest)
        (.str "Taco") (.num (7/2)) (.str "Spicy")).events
      ≠ ["tenant/cafe/users/u1/menu_items"] := by
  have h : collectionPaths (addMenuItem okPlatform fullEnv 1700000000000 (some guest)
        (.str "Taco") (.num (7/2)) (.str "Spicy")).events
      = ["artifacts/cafe/users/u1/menu_items"] := by decide
  exact ⟨h, by rw [h]; decide⟩

/-- C4: with an identity established, when `collection` throws `e`, or
`collection` returns and `addDoc` rejects with `e`, the promise of
`addMenuItem` is still fulfilled; exactly one `console.error` entry is
emitted, carrying `e`; and no `console.log` entry is emitted. -/
theorem addMenuItem_backend_error (p : Platform) (env : Env) (now : Int) (user : User)
    (name price description e : JsVal)
    (h : p.collection (menuItemsPath (appId env) user.uid) = .error e ∨
         (p.collection (menuItemsPath (appId env) user.uid) = .ok () ∧
          p.addDoc (menuItemsPath (appId env) user.uid)
            (menuItem name price description now) = .error e)) :
    (addMenuItem p env now (some user) name price description).result = .ok .undefined ∧
    (addMenuItem p env now (some user) name price description).events.countP Event.isError = 1 ∧
    (addMenuItem p env now (some user) name price description).events.countP Event.isLog = 0 ∧
    (addMenuItem p env now (some user) name price description).events.filter Event.isConsole
      = [.error [.str "Error al agregar documento: ", e]] := by
  rcases h with hc | ⟨hc, ha⟩
  · rw [addMenuItem_run_collection_throws p env now user name price description e hc]
    exact ⟨rfl, rfl, rfl, rfl⟩
  · rw [addMenuItem_run_addDoc_rejects p env now user name price description e hc ha]
    exact ⟨rfl, rfl, rfl, rfl⟩

/-- C4 on a backend whose `addDoc` rejects with `permission-denied`, and on
one whose `collection` throws `invalid-argument`. -/
theorem addMenuItem_backend_error_witness :
    ((readOnly.collection (menuItemsPath (appId bareEnv) guest.uid) = .ok () ∧
      readOnly.addDoc (menuItemsPath (appId bareEnv) guest.uid)
        (menuItem (.str "Taco") (.num (7/2)) (.str "Spicy") 0)
          = .error (.str "permission-denied")) ∧
     (addMenuItem readOnly bareEnv 0 (some guest)
        (.str "Taco") (.num (7/2)) (.str "Spicy")).result = .ok .undefined ∧
     (addMenuItem readOnly bareEnv 0 (some guest)
        (.str "Taco") (.num (7/2)) (.str "Spicy")).events.countP Event.isError = 1 ∧
     (addMenuItem readOnly bareEnv 0 (some guest)
        (.str "Taco") (.num (7/2)) (.str "Spicy")).events.countP Event.isLog = 0 ∧
     (addMenuItem readOnly bareEnv 0 (some guest)
        (.str "Taco") (.num (7/2)) (.str "Spicy")).events.filter Event.isConsole
      = [.error [.str "Error al agregar documento: ", .str "permission-denied"]]) ∧
    (badPath.collection (menuItemsPath (appId bareEnv) guest.uid)
        = .error (.str "invalid-argument") ∧
     (addMenuItem badPath bareEnv 0 (some guest)
        (.str "Taco") (.num (7/2)) (.str "Spicy")).result = .ok .undefined ∧
     (addMenuItem badPath bareEnv 0 (some guest)
        (.str "Taco") (.num (7/2)) (.str "Spicy")).events.countP Event.isError = 1 ∧
     (addMenuItem badPath bareEnv 0 (some guest)
        (.str "Taco") (.num (7/2)) (.str "Spicy")).events.countP Event.isLog = 0 ∧
     (addMenuItem badPath bareEnv 0 (some guest)
        (.str "Taco") (.num (7/2)) (.str "Spicy")).events.filter Event.isConsole
      = [.error [.str "Error al agregar documento: ", .str "invalid-argument"]]) :=
  ⟨⟨⟨rfl, rfl⟩, addMenuItem_backend_error readOnly bareEnv 0 guest
      (.str "Taco") (.num (7/2)) (.str "Spicy") (.str "permission-denied")
      (Or.inr ⟨rfl, rfl⟩)⟩,
   ⟨rfl, addMenuItem_backend_error badPath bareEnv 0 guest
      (.str "Taco") (.num (7/2)) (.str "Spicy") (.str "invalid-argument")
      (Or.inl rfl)⟩⟩

/-- C5: for the same arguments, on any two platforms, environments, clock
readings and authentication states (so whether the write is skipped, succeeds
or fails), the promise of `addMenuItem` is fulfilled, never rejected, and
fulfilled with the same value, `undefined`. -/
theorem addMenuItem_no_outcome_signal (p q : Platform) (env env2 : Env) (now now2 : Int)
    (cur cur2 : Option User) (name price description : JsVal) :
    (addMenuItem p env now cur name price description).result = .ok .undefined ∧
    (addMenuItem p env now cur name price description).result
      = (addMenuItem q env2 now2 cur2 name price description).result := by
  rw [addMenuItem_result, addMenuItem_result]
  exact ⟨rfl, rfl⟩

/-! ## The session bootstrapper -/

/-- C6 as stated fails: with no token supplied and `setPersistence` throwing,
`signInAnonymously` is not invoked at all. -/
theorem initializeAuth_no_token_no_sign_in :
    bareEnv.initial_auth_token = none ∧
    (initializeAuth noPersistence bareEnv none).events.countP Event.isSignInAnonymously = 0 ∧
    (initializeAuth noPersistence bareEnv none).events.countP Event.isSignInAnonymously ≠ 1 := by
  refine ⟨rfl, ?_, ?_⟩ <;> decide

/-- C6, amended: with no token supplied and `setPersistence` succeeding,
`signInWithCustomToken` is never invoked, `signInAnonymously` is invoked
exactly once, and when that call succeeds the current user is the anonymous
user it signed in. -/
theorem initializeAuth_no_token (p : Platform) (env : Env) (cur : Option User)
    (htok : env.initial_auth_token = none)
    (hp : p.setPersistence .browserSessionPersistence = .ok ()) :
    (initializeAuth p env cur).events.countP Event.isSignInWithCustomToken = 0 ∧
    (initializeAuth p env cur).events.countP Event.isSignInAnonymously = 1 ∧
    ∀ uid, p.signInAnonymously = .ok uid →
      (initializeAuth p env cur).currentUser = some { uid := uid, isAnonymous := true } := by
  have ht : truthyToken env.initial_auth_token = none := by rw [htok]; rfl
  cases ha : p.signInAnonymously with
  | error e =>
    rw [initializeAuth_run_anonymous_throws p env cur e hp ht ha]
    exact ⟨rfl, rfl, fun uid h => by cases h⟩
  | ok uid0 =>
    rw [initializeAuth_run_anonymous p env cur uid0 hp ht ha]
    refine ⟨rfl, rfl, fun uid h => ?_⟩
    cases h
    rfl

/-- C6, amended, on a platform where every call succeeds. -/
theorem initializeAuth_no_token_witness :
    (bareEnv.initial_auth_token = none ∧
     okPlatform.setPersistence .browserSessionPersistence = .ok () ∧
     okPlatform.signInAnonymously = .ok "anon-1") ∧
    (initializeAuth okPlatform bareEnv none).events.countP Event.isSignInWithCustomToken = 0 ∧
    (initializeAuth okPlatform bareEnv none).events.countP Event.isSignInAnonymously = 1 ∧
    (initializeAuth okPlatform bareEnv none).currentUser
      = some { uid := "anon-1", isAnonymous := true } :=
  ⟨⟨rfl, rfl, rfl⟩,
   (initializeAuth_no_token okPlatform bareEnv none rfl rfl).1,
   (initializeAuth_no_token okPlatform bareEnv none rfl rfl).2.1,
   (initializeAuth_no_token okPlatform bareEnv none rfl rfl).2.2 "anon-1" rfl⟩

/-- C7 as stated fails: the token `tok` is tried and refused, the anonymous
fallback is refused too, and the run ends with no identity at all (and a
rejected promise), not with an anonymous identity. -/
theorem initializeAuth_fallback_refused :
    fullEnv.initial_auth_token = some "tok" ∧
    noSignIn.signInWithCustomToken "tok" = .error (.str "auth/invalid-custom-token") ∧
    (initializeAuth noSignIn fullEnv none).events
      = [.setPersistence .browserSessionPersistence,
         .signInWithCustomToken "tok",
         .error [.str "Error al autenticar con Custom Token:",
                 .str "auth/invalid-custom-token"],
         .signInAnonymously] ∧
    (initializeAuth noSignIn fullEnv none).currentUser = none ∧
    (initializeAuth noSignIn fullEnv none).result
      = .error (.str "auth/operation-not-allowed") := by
  have ht : truthyToken fullEnv.initial_auth_token = some "tok" := by decide
  rw [initializeAuth_run_fallback_throws noSignIn fullEnv none "tok"
        (.str "auth/invalid-custom-token") (.str "auth/operation-not-allowed") rfl ht rfl rfl]
  exact ⟨rfl, rfl, rfl, rfl, rfl⟩

/-- C7, amended: with the token `tok` supplied, sign-in with it is attempted
exactly when `setPersistence` succeeded and `tok` is not the empty string.
When the attempt succeeds, the current user is the credential-based user it
signed in and `signInAnonymously` is never invoked.  When the attempt raises
`e`, the events are `setPersistence`, the attempt, a `console.error` carrying
`e`, then `signInAnonymously`, invoked exactly once, and when that call
succeeds the current user is the anonymous user it signed in. -/
theorem initializeAuth_with_token (p : Platform) (env : Env) (cur : Option User)
    (tok : String) (htok : env.initial_auth_token = some tok) :
    (Event.signInWithCustomToken tok ∈ (initializeAuth p env cur).events ↔
      (p.setPersistence .browserSessionPersistence = .ok () ∧ tok ≠ "")) ∧
    (∀ uid, Event.signInWithCustomToken tok ∈ (initializeAuth p env cur).events →
      p.signInWithCustomToken tok = .ok uid →
      (initializeAuth p env cur).currentUser = some { uid := uid, isAnonymous := false } ∧
      (initializeAuth p env cur).events.countP Event.isSignInAnonymously = 0) ∧
    (∀ e, Event.signInWithCustomToken tok ∈ (initializeAuth p env cur).events →
      p.signInWithCustomToken tok = .error e →
      (∃ rest, (initializeAuth p env cur).events
          = [.setPersistence .browserSessionPersistence,
             .signInWithCustomToken tok,
             .error [.str "Error al autenticar con Custom Token:", e],
             .signInAnonymously] ++ rest ∧
          rest.countP Event.isSignInAnonymously = 0) ∧
      (initializeAuth p env cur).events.countP Event.isSignInAnonymously = 1 ∧
      ∀ uid, p.signInAnonymously = .ok uid →
        (initializeAuth p env cur).currentUser
          = some { uid := uid, isAnonymous := true }) := by
  cases hp : p.setPersistence .browserSessionPersistence with
  | error e0 =>
    rw [initializeAuth_run_persistence_throws p env cur e0 hp]
    refine ⟨⟨fun h => ?_, fun h => ?_⟩, fun uid h => ?_, fun e h => ?_⟩
    · simp at h
    · simp at h
    · simp at h
    · simp at h
  | ok u =>
    rcases truthyToken_some tok with ⟨hempty, ht⟩ | ⟨hne, ht⟩
    · replace ht : truthyToken env.initial_auth_token = none := by rw [htok]; exact ht
      cases ha : p.signInAnonymously with
      | error e1 =>
        rw [initializeAuth_run_anonymous_throws p env cur e1 hp ht ha]
        refine ⟨⟨fun h => ?_, fun h => absurd hempty h.2⟩, fun uid h => ?_, fun e h => ?_⟩
        · simp at h
        · simp at h
        · simp at h
      | ok uid1 =>
        rw [initializeAuth_run_anonymous p env cur uid1 hp ht ha]
        refine ⟨⟨fun h => ?_, fun h => absurd hempty h.2⟩, fun uid h => ?_, fun e h => ?_⟩
        · simp at h
        · simp at h
        · simp at h
    · replace ht : truthyToken env.initial_auth_token = some tok := by rw [htok]; exact ht
      cases hs : p.signInWithCustomToken tok with
      | ok uid0 =>
        rw [initializeAuth_run_token p env cur tok uid0 hp ht hs]
        refine ⟨⟨fun _ => ⟨rfl, hne⟩, fun _ => by simp⟩, fun uid _ h => ?_, fun e _ h => ?_⟩
        · cases h
          exact ⟨rfl, rfl⟩
        · cases h
      | error err =>
        cases ha : p.signInAnonymously with
        | error e1 =>
          rw [initializeAuth_run_fallback_throws p env cur tok err e1 hp ht hs ha]
          refine ⟨⟨fun _ => ⟨rfl, hne⟩, fun _ => by simp⟩, fun uid _ h => ?_, fun e _ h => ?_⟩
          · cases h
          · cases h
            exact ⟨⟨[], rfl, rfl⟩, rfl, fun uid h2 => by cases h2⟩
        | ok uid1 =>
          rw [initializeAuth_run_fallback p env cur tok uid1 err hp ht hs ha]
          refine ⟨⟨fun _ => ⟨rfl, hne⟩, fun _ => by simp⟩, fun uid _ h => ?_, fun e _ h => ?_⟩
          · cases h
          · cases h
            refine ⟨⟨[.log [.str "Autenticación anónima utilizada como fallback."]],
              rfl, rfl⟩, rfl, fun uid h2 => ?_⟩
            cases h2
            rfl

/-- C7, amended, where the token is accepted and where it is refused and the
anonymous fallback succeeds. -/
theorem initializeAuth_with_token_witness :
    ((fullEnv.initial_auth_token = some "tok" ∧
      Event.signInWithCustomToken "tok" ∈ (initializeAuth okPlatform fullEnv none).events ∧
      okPlatform.signInWithCustomToken "tok" = .ok "user-1") ∧
     (initializeAuth okPlatform fullEnv none).currentUser
        = some { uid := "user-1", isAnonymous := false } ∧
     (initializeAuth okPlatform fullEnv none).events.countP Event.isSignInAnonymously = 0) ∧
    ((fullEnv.initial_auth_token = some "tok" ∧
      Event.signInWithCustomToken "tok" ∈ (initializeAuth badToken fullEnv none).events ∧
      badToken.signInWithCustomToken "tok" = .error (.str "auth/invalid-custom-token") ∧
      badToken.signInAnonymously = .ok "anon-1") ∧
     (initializeAuth badToken fullEnv none).events.countP Event.isSignInAnonymously = 1 ∧
     (initializeAuth badToken fullEnv none).currentUser
        = some { uid := "anon-1", isAnonymous := true }) :=
  ⟨⟨⟨rfl, mem_events_okPlatform_fullEnv, rfl⟩,
    (initializeAuth_with_token okPlatform fullEnv none "tok" rfl).2.1 "user-1"
      mem_events_okPlatform_fullEnv rfl⟩,
   ⟨⟨rfl, mem_events_badToken_fullEnv, rfl, rfl⟩,
    ((initializeAuth_with_token badToken fullEnv none "tok" rfl).2.2
      (.str "auth/invalid-custom-token") mem_events_badToken_fullEnv rfl).2.1,
    ((initializeAuth_with_token badToken fullEnv none "tok" rfl).2.2
      (.str "auth/invalid-custom-token") mem_events_badToken_fullEnv rfl).2.2 "anon-1" rfl⟩⟩

/-- C8 as stated fails: when `setPersistence` throws, and likewise when no
token is supplied and `signInAnonymously` throws, the promise of
`initializeAuth` is rejected and no identity is established. -/
theorem initializeAuth_rejects :
    ((initializeAuth noPersistence bareEnv none).result
        = .error (.str "auth/unsupported-persistence-type") ∧
     (initializeAuth noPersistence bareEnv none).currentUser = none) ∧
    ((initializeAuth noSignIn bareEnv none).result
        = .error (.str "auth/operation-not-allowed") ∧
     (initializeAuth noSignIn bareEnv none).currentUser = none) := by
  rw [initializeAuth_run_persistence_throws noPersistence bareEnv none
        (.str "auth/unsupported-persistence-type") rfl,
      initializeAuth_run_anonymous_throws noSignIn bareEnv none
        (.str "auth/operation-not-allowed") rfl rfl rfl]
  exact ⟨⟨rfl, rfl⟩, rfl, rfl⟩

/-- C8, amended: for every token value, absent or present, and every outcome
of `signInWithCustomToken`, when `setPersistence` succeeds and
`signInAnonymously`, if it is invoked, succeeds, the promise of
`initializeAuth` is fulfilled and the run ends with exactly one of a
credential-based current user and an anonymous current user. -/
theorem initializeAuth_two_outcomes (p : Platform) (env : Env) (cur : Option User)
    (hp : p.setPersistence .browserSessionPersistence = .ok ())
    (ha : Event.signInAnonymously ∈ (initializeAuth p env cur).events →
          ∃ uid, p.signInAnonymously = .ok uid) :
    (initializeAuth p env cur).result = .ok .undefined ∧
    (((∃ uid, (initializeAuth p env cur).currentUser
          = some { uid := uid, isAnonymous := false }) ∧
      ¬ ∃ uid, (initializeAuth p env cur).currentUser
          = some { uid := uid, isAnonymous := true }) ∨
     ((∃ uid, (initializeAuth p env cur).currentUser
          = some { uid := uid, isAnonymous := true }) ∧
      ¬ ∃ uid, (initializeAuth p env cur).currentUser
          = some { uid := uid, isAnonymous := false })) := by
  cases ht : truthyToken env.initial_auth_token with
  | none =>
    cases hs : p.signInAnonymously with
    | error e =>
      rw [initializeAuth_run_anonymous_throws p env cur e hp ht hs] at ha
      obtain ⟨uid, h⟩ := ha (List.Mem.tail _ (List.Mem.head _))
      rw [hs] at h
      cases h
    | ok uid =>
      rw [initializeAuth_run_anonymous p env cur uid hp ht hs]
      exact ⟨rfl, Or.inr ⟨⟨uid, rfl⟩, fun ⟨_, h⟩ => by simp at h⟩⟩
  | some tok =>
    cases hc : p.signInWithCustomToken tok with
    | ok uid =>
      rw [initializeAuth_run_token p env cur tok uid hp ht hc]
      exact ⟨rfl, Or.inl ⟨⟨uid, rfl⟩, fun ⟨_, h⟩ => by simp at h⟩⟩
    | error err =>
      cases hs : p.signInAnonymously with
      | error e =>
        rw [initializeAuth_run_fallback_throws p env cur tok err e hp ht hc hs] at ha
        obtain ⟨uid, h⟩ :=
          ha (List.Mem.tail _ (List.Mem.tail _ (List.Mem.tail _ (List.Mem.head _))))
        rw [hs] at h
        cases h
      | ok uid =>
        rw [initializeAuth_run_fallback p env cur tok uid err hp ht hc hs]
        exact ⟨rfl, Or.inr ⟨⟨uid, rfl⟩, fun ⟨_, h⟩ => by simp at h⟩⟩

/-- C8, amended, where the token is refused and the anonymous fallback
succeeds. -/
theorem initializeAuth_two_outcomes_witness :
    (badToken.setPersistence .browserSessionPersistence = .ok () ∧
     Event.signInAnonymously ∈ (initializeAuth badToken fullEnv none).events ∧
     badToken.signInAnonymously = .ok "anon-1") ∧
    (initializeAuth badToken fullEnv none).result = .ok .undefined ∧
    (((∃ uid, (initializeAuth badToken fullEnv none).currentUser
          = some { uid := uid, isAnonymous := false }) ∧
      ¬ ∃ uid, (initializeAuth badToken fullEnv none).currentUser
          = some { uid := uid, isAnonymous := true }) ∨
     ((∃ uid, (initializeAuth badToken fullEnv none).currentUser
          = some { uid := uid, isAnonymous := true }) ∧
      ¬ ∃ uid, (initializeAuth badToken fullEnv none).currentUser
          = some { uid := uid, isAnonymous := false })) :=
  ⟨⟨rfl, mem_anonymous_badToken_fullEnv, rfl⟩,
   initializeAuth_two_outcomes badToken fullEnv none rfl (fun _ => ⟨"anon-1", rfl⟩)⟩

/-- C10: every run of `initializeAuth` calls `setPersistence` exactly once,
as its first call and with `browserSessionPersistence`; a sign-in attempt of
either kind occurs in the run only if that call returned; and if that call
throws, no sign-in attempt of either kind is made. -/
theorem initializeAuth_persistence_first (p : Platform) (env : Env) (cur : Option User) :
    (initializeAuth p env cur).events.countP Event.isSetPersistence = 1 ∧
    (∃ rest, (initializeAuth p env cur).events
        = .setPersistence .browserSessionPersistence :: rest) ∧
    (∀ ev ∈ (initializeAuth p env cur).events,
      (ev.isSignInWithCustomToken || ev.isSignInAnonymously) = true →
      p.setPersistence .browserSessionPersistence = .ok ()) ∧
    (∀ e, p.setPersistence .browserSessionPersistence = .error e →
      (initializeAuth p env cur).events.countP Event.isSignInWithCustomToken = 0 ∧
      (initializeAuth p env cur).events.countP Event.isSignInAnonymously = 0) := by
  cases hp : p.setPersistence .browserSessionPersistence with
  | error e0 =>
    rw [initializeAuth_run_persistence_throws p env cur e0 hp]
    refine ⟨rfl, ⟨[], rfl⟩, fun ev hev hsign => ?_, fun _ _ => ⟨rfl, rfl⟩⟩
    simp only [List.mem_singleton] at hev
    subst hev
    cases hsign
  | ok u =>
    have key : (initializeAuth p env cur).events.countP Event.isSetPersistence = 1 ∧
        ∃ rest, (initializeAuth p env cur).events
          = .setPersistence .browserSessionPersistence :: rest := by
      cases ht : truthyToken env.initial_auth_token with
      | none =>
        cases hs : p.signInAnonymously with
        | error e =>
          rw [initializeAuth_run_anonymous_throws p env cur e hp ht hs]
          exact ⟨rfl, _, rfl⟩
        | ok uid =>
          rw [initializeAuth_run_anonymous p env cur uid hp ht hs]
          exact ⟨rfl, _, rfl⟩
      | some tok =>
        cases hc : p.signInWithCustomToken tok with
        | ok uid =>
          rw [initializeAuth_run_token p env cur tok uid hp ht hc]
          exact ⟨rfl, _, rfl⟩
        | error err =>
          cases hs : p.signInAnonymously with
          | error e =>
            rw [initializeAuth_run_fallback_throws p env cur tok err e hp ht hc hs]
            exact ⟨rfl, _, rfl⟩
          | ok uid =>
            rw [initializeAuth_run_fallback p env cur tok uid err hp ht hc hs]
            exact ⟨rfl, _, rfl⟩
    exact ⟨key.1, key.2, fun _ _ _ => rfl, fun e h => by cases h⟩

/-- C10 where `setPersistence` throws, and at the custom-token sign-in of a
run where it returned. -/
theorem initializeAuth_persistence_first_witness :
    (noPersistence.setPersistence .browserSessionPersistence
        = .error (.str "auth/unsupported-persistence-type") ∧
     (initializeAuth noPersistence fullEnv none).events.countP
        Event.isSignInWithCustomToken = 0 ∧
     (initializeAuth noPersistence fullEnv none).events.countP
        Event.isSignInAnonymously = 0) ∧
    ((Event.signInWithCustomToken "tok" ∈ (initializeAuth okPlatform fullEnv none).events ∧
      ((Event.signInWithCustomToken "tok").isSignInWithCustomToken ||
        (Event.signInWithCustomToken "tok").isSignInAnonymously) = true) ∧
     okPlatform.setPersistence .browserSessionPersistence = .ok ()) :=
  ⟨⟨rfl, (initializeAuth_persistence_first noPersistence fullEnv none).2.2.2
      (.str "auth/unsupported-persistence-type") rfl⟩,
   ⟨⟨mem_events_okPlatform_fullEnv, rfl⟩,
    (initializeAuth_persistence_first okPlatform fullEnv none).2.2.1
      (.signInWithCustomToken "tok") mem_events_okPlatform_fullEnv rfl⟩⟩

/-! ## The configuration -/

/-- C9: when the environment supplies no configuration blob, computing the
configuration does not fail and `initializeApp` is called with the empty
object; when it supplies a blob that `JSON.parse` decodes to `config`,
`initializeApp` is called with `config`; and when `JSON.parse` throws on the
blob, `initializeApp` is not called at all. -/
theorem firebaseConfig_handed_to_initializeApp (p : Platform) (env : Env) :
    (env.firebase_config = none →
      firebaseConfig p env = .ok (.obj []) ∧
      appConfigs (loadModule p env).events = [.obj []]) ∧
    (∀ blob config, env.firebase_config = some blob → p.jsonParse blob = .ok config →
      firebaseConfig p env = .ok config ∧
      appConfigs (loadModule p env).events = [config]) ∧
    (∀ blob e, env.firebase_config = some blob → p.jsonParse blob = .error e →
      (loadModule p env).events = [] ∧ (loadModule p env).result = .error e) := by
  refine ⟨fun h => ?_, fun blob config h hj => ?_, fun blob e h hj => ?_⟩
  · have hc : firebaseConfig p env = .ok (.obj []) := by
      unfold firebaseConfig
      rw [h]
    exact ⟨hc, appConfigs_loadModule p env _ hc⟩
  · have hc : firebaseConfig p env = .ok config := by
      unfold firebaseConfig
      rw [h]
      exact hj
    exact ⟨hc, appConfigs_loadModule p env _ hc⟩
  · have hc : firebaseConfig p env = .error e := by
      unfold firebaseConfig
      rw [h]
      exact hj
    unfold loadModule
    rw [hc]
    exact ⟨rfl, rfl⟩

/-- C9 with nothing injected, with the blob of the empty object, and with a
blob that is not JSON. -/
theorem firebaseConfig_handed_to_initializeApp_witness :
    (bareEnv.firebase_config = none ∧
     firebaseConfig okPlatform bareEnv = .ok (.obj []) ∧
     appConfigs (loadModule okPlatform bareEnv).events = [.obj []]) ∧
    ((fullEnv.firebase_config = some "\x7b\x7d" ∧
      okPlatform.jsonParse "\x7b\x7d" = .ok (.obj [])) ∧
     firebaseConfig okPlatform fullEnv = .ok (.obj []) ∧
     appConfigs (loadModule okPlatform fullEnv).events = [.obj []]) ∧
    (((Env.mk (some "oops") none none).firebase_config = some "oops" ∧
      okPlatform.jsonParse "oops" = .error (.str "SyntaxError")) ∧
     (loadModule okPlatform (Env.mk (some "oops") none none)).events = [] ∧
     (loadModule okPlatform (Env.mk (some "oops") none none)).result
        = .error (.str "SyntaxError")) :=
  ⟨⟨rfl, (firebaseConfig_handed_to_initializeApp okPlatform bareEnv).1 rfl⟩,
   ⟨⟨rfl, rfl⟩,
    (firebaseConfig_handed_to_initializeApp okPlatform fullEnv).2.1
      "\x7b\x7d" (.obj []) rfl rfl⟩,
   ⟨⟨rfl, rfl⟩,
    (firebaseConfig_handed_to_initializeApp okPlatform (Env.mk (some "oops") none none)).2.2
      "oops" (.str "SyntaxError") rfl rfl⟩⟩

end FirebaseConfig
